import Mathlib

/-!
Shallow embedding of the emotion-detection HTTP service
(`app_optimized.py`): the base64 decoder semantics used by the handler
(CPython `base64.b64decode` with `validate=False`), the data-URL prefix
stripping, the three-bucket emotion aggregation, the dominant-emotion
selection, the confidence rounding, the warmup flag, and the
`/detect-emotion` request handler with its error-handling policy.

Strings are modelled as `List Char`; floating-point scores as `ℚ`
(the aggregation weights 0.5 and 0.3 and all spec test vectors are
exact in `ℚ`); the external collaborators (PIL image parsing and the
DeepFace model call) are oracles supplied through an environment.
-/

namespace EmotionAPI

/-- The standard base64 alphabet, in order, as used by
`base64.b64decode`. -/
def b64Alphabet : List Char :=
  "ABCDEFGHIJKLMNOPQRSTUVWXYZabcdefghijklmnopqrstuvwxyz0123456789+/".toList

/-- Value of a base64 alphabet character; `none` for characters outside
the alphabet (which `b64decode` with `validate=False` silently skips). -/
def b64Value (c : Char) : Option Nat :=
  if c ∈ b64Alphabet then some (b64Alphabet.indexOf c) else none

/-- Decoder state mirroring CPython `binascii.a2b_base64` (non-strict
mode): position inside the current 4-character quad, pending bits,
count of padding characters seen for the current quad, bytes emitted so
far, and whether padding terminated decoding. -/
structure B64State where
  quadPos : Nat
  leftchar : Nat
  pads : Nat
  out : List Nat
  done : Bool
deriving Repr, DecidableEq

def b64Init : B64State := ⟨0, 0, 0, [], false⟩

/-- One step of CPython `binascii.a2b_base64` with `strict_mode=0`:
characters outside the alphabet are skipped; `=` is counted as padding
only when at least two data characters of the current quad have been
seen, and decoding ends once the quad is completed by padding; data
characters emit output bytes incrementally. -/
def b64Step (st : B64State) (c : Char) : B64State :=
  if st.done then st
  else if c = '=' then
    if 2 ≤ st.quadPos then
      if 4 ≤ st.quadPos + st.pads + 1 then { st with done := true }
      else { st with pads := st.pads + 1 }
    else st
  else
    match b64Value c with
    | none => st
    | some v =>
      match st.quadPos with
      | 0 => { st with quadPos := 1, leftchar := v, pads := 0 }
      | 1 => { st with
               quadPos := 2
               pads := 0
               out := st.out ++ [st.leftchar * 4 + v / 16]
               leftchar := v % 16 }
      | 2 => { st with
               quadPos := 3
               pads := 0
               out := st.out ++ [st.leftchar * 16 + v / 4]
               leftchar := v % 4 }
      | _ => { st with
               quadPos := 0
               pads := 0
               out := st.out ++ [st.leftchar * 64 + v]
               leftchar := 0 }

/-- `base64.b64decode(s)` on a `str` with default `validate=False`.
The argument is first ASCII-encoded (`_bytes_from_decode_data` runs
`s.encode('ascii')`), so any character with code point ≥ 128 raises
`ValueError` before decoding starts; then non-alphabet ASCII
characters are skipped, quads are decoded, and `binascii.Error` is
raised iff input ends mid-quad without sufficient padding. `none`
models either raised exception. -/
def b64decode (s : List Char) : Option (List Nat) :=
  if s.all (fun c => c.toNat < 128) then
    let st := s.foldl b64Step b64Init
    if st.done then some st.out
    else if st.quadPos = 0 then some st.out
    else none
  else none

/-- Python `s.split(',')`: split on every comma, preserving empty
segments. -/
def splitOnComma : List Char → List (List Char)
  | [] => [[]]
  | c :: rest =>
    match splitOnComma rest with
    | [] => [[c]]
    | g :: gs => if c = ',' then [] :: g :: gs else (c :: g) :: gs

/-- Lines 102–105 of `app_optimized.py`: if the image string contains a
comma, the payload is `img_data_url.split(',')[1]` — the segment
between the first and the second comma; otherwise the whole string. -/
def extract_payload (s : List Char) : List Char :=
  if ',' ∈ s then ((splitOnComma s)[1]?).getD [] else s

/-- Everything after the first comma (what the spec's words "split on
the first comma only" describe); whole string when no comma. Stated for
comparison with `extract_payload`. -/
def afterFirstComma : List Char → List Char
  | [] => []
  | c :: rest => if c = ',' then rest else afterFirstComma rest

/-- Payload extraction as the spec describes it: everything after the
first comma when a comma is present, else the whole string. -/
def extract_payload_spec (s : List Char) : List Char :=
  if ',' ∈ s then afterFirstComma s else s

/-- Python `d.get(k, 0)` on a score dictionary modelled as an
association list: the first binding of `k`, else `0`. -/
def getScore (d : List (String × ℚ)) (k : String) : ℚ :=
  match d with
  | [] => 0
  | (k2, v) :: rest => if k2 = k then v else getScore rest k

/-- Lines 143–151: the three-bucket mapping built by the handler, as an
association list in the dict's insertion order
`happy, neutral, sad`. -/
def emotion_mapping (emotions : List (String × ℚ)) : List (String × ℚ) :=
  [ ("happy", getScore emotions "happy")
  , ("neutral", getScore emotions "neutral")
  , ("sad", getScore emotions "sad"
            + getScore emotions "angry" * (5/10)
            + getScore emotions "fear" * (3/10)) ]

/-- Python `max(iterable, key=get)` over the remaining entries: keeps
the current key unless a strictly greater value appears, so the first
maximum in iteration order wins. -/
def maxKeyAux (k : String) (v : ℚ) : List (String × ℚ) → String
  | [] => k
  | (k2, v2) :: rest =>
    if v < v2 then maxKeyAux k2 v2 rest else maxKeyAux k v rest

/-- Line 154: `max(emotion_mapping, key=emotion_mapping.get)` — the
first key of maximal value in the dict's iteration order. -/
def dominant_of (mapping : List (String × ℚ)) : String :=
  match mapping with
  | [] => ""
  | (k, v) :: rest => maxKeyAux k v rest

/-- Round to the nearest integer, halves to even — the semantics of
Python's built-in `round`. -/
def roundHalfEven (q : ℚ) : ℤ :=
  let f := ⌊q⌋
  let r := q - f
  if r < 1/2 then f
  else if 1/2 < r then f + 1
  else if Even f then f else f + 1

/-- Python `round(x, 2)`: round to two decimal places, halves to
even. -/
def round2 (q : ℚ) : ℚ := (roundHalfEven (q * 100) : ℚ) / 100

/-- Line 155: `round(emotion_mapping[dominant_emotion] / 100, 2)`. -/
def confidence_of (mapping : List (String × ℚ)) : ℚ :=
  round2 (getScore mapping (dominant_of mapping) / 100)

/-- Line 31: `models_warmed_up = False` at process start. -/
def models_warmed_up_init : Bool := false

/-- Lines 33–51, `warmup_models()`: if the flag is unset, attempt a
dummy inference (`ok` tells whether `DeepFace.analyze` succeeds); the
flag becomes true only on success, and a failure is logged and
swallowed. Returns the new flag value and whether an inference was
attempted. -/
def warmup_models (ok : Bool) (flag : Bool) : Bool × Bool :=
  if flag then (flag, false) else (ok, true)

/-- `DeepFace.analyze` may return a single result dict or a list of
per-face result dicts; each dict may lack the `emotion` key (modelled
by `Option`, with `result.get('emotion', {})` defaulting to empty). -/
inductive DFOut where
  | single (d : Option (List (String × ℚ)))
  | many (l : List (Option (List (String × ℚ))))
deriving Repr, DecidableEq

/-- Lines 136–140: `result[0]` when the response is a list (raising
`IndexError` on an empty list, modelled as `Except.error`), then
`result.get('emotion', {})`. -/
def firstResult : DFOut → Except String (Option (List (String × ℚ)))
  | .single d => .ok d
  | .many [] => .error "list index out of range"
  | .many (d :: _) => .ok d

/-- The external collaborators of the handler: whether warmup inference
succeeds, PIL image opening/conversion/resizing (`Image.open` …
`np.array`), and the DeepFace model call. `Except.error` carries the
exception message `str(e)`. -/
structure Env (Img : Type) where
  warmupOk : Bool
  parseImage : List Nat → Except String Img
  classify : Img → Except String DFOut

/-- The JSON body of a POST request: `none` when there is no JSON body,
otherwise the dict's entries (string keys to string values, the only
shape the handler reads). -/
structure Request where
  json : Option (List (String × List Char))
deriving Repr, DecidableEq

/-- Python dict field access on a JSON object modelled as an
association list. -/
def lookupField (d : List (String × List Char)) (k : String) :
    Option (List Char) :=
  match d with
  | [] => none
  | (k2, v) :: rest => if k2 = k then some v else lookupField rest k

/-- Lines 94–99: `not request.json or 'image' not in request.json`
(an empty dict is falsy), then `request.json['image']`. `none` means
the request fails validation. -/
def requestImage? (req : Request) : Option (List Char) :=
  match req.json with
  | none => none
  | some d => if d.isEmpty then none else lookupField d "image"

/-- The response bodies the handler can build: a 400 error body, the
200 success body, or the 200 degraded body of the blanket `except`
branch. `processing_time_ms` is attached to every 200-class body and
carries no logic, so it is not modelled. -/
inductive DetectResponse where
  | err400 (msg : String)
  | ok200 (emotion : String) (confidence : ℚ) (allEmotions : List (String × ℚ))
  | degraded200 (emotion : String) (confidence : ℚ) (errMsg : String)
deriving Repr, DecidableEq

/-- HTTP status code of a response. -/
def status : DetectResponse → Nat
  | .err400 _ => 400
  | .ok200 _ _ _ => 200
  | .degraded200 _ _ _ => 200

/-- The `emotion` field of the response body, when present. -/
def bodyEmotion : DetectResponse → Option String
  | .err400 _ => none
  | .ok200 e _ _ => some e
  | .degraded200 e _ _ => some e

/-- The `confidence` field of the response body, when present. -/
def bodyConfidence : DetectResponse → Option ℚ
  | .err400 _ => none
  | .ok200 _ c _ => some c
  | .degraded200 _ c _ => some c

/-- The `error` field of the response body, when present. -/
def bodyError : DetectResponse → Option String
  | .err400 m => some m
  | .ok200 _ _ _ => none
  | .degraded200 _ _ m => some m

/-- Outcome of one `POST /detect-emotion` call: the warmup flag after
the call, whether a warmup inference was attempted during the call, and
the response. -/
structure DetectResult where
  warmedUp : Bool
  warmupAttempted : Bool
  response : DetectResponse
deriving Repr, DecidableEq

/-- Lines 75–181, `detect_emotion` (POST path): warm up models first
(line 88, before any validation), then validate the `image` field
(400 on absence), strip the data-URL prefix, base64-decode (400 on
failure), and run parse → classify → aggregate inside the blanket
`try`: any exception there is answered by the `except` branch with a
200 degraded body `{emotion: "neutral", confidence: 0.5, error: e}`. -/
def detect_emotion {Img : Type} (env : Env Img) (flag : Bool)
    (req : Request) : DetectResult :=
  let w := warmup_models env.warmupOk flag
  match requestImage? req with
  | none => ⟨w.1, w.2, .err400 "Missing image data"⟩
  | some imgStr =>
    let payload := extract_payload imgStr
    match b64decode payload with
    | none => ⟨w.1, w.2, .err400 "Invalid base64 image data"⟩
    | some bytes =>
      match env.parseImage bytes with
      | .error e => ⟨w.1, w.2, .degraded200 "neutral" (5/10) e⟩
      | .ok img =>
        match env.classify img with
        | .error e => ⟨w.1, w.2, .degraded200 "neutral" (5/10) e⟩
        | .ok dfres =>
          match firstResult dfres with
          | .error e => ⟨w.1, w.2, .degraded200 "neutral" (5/10) e⟩
          | .ok emOpt =>
            let mapping := emotion_mapping (emOpt.getD [])
            let dom := dominant_of mapping
            ⟨w.1, w.2, .ok200 dom (confidence_of mapping) mapping⟩

/-! ### Shared concrete fixtures used to instantiate handler theorems -/

/-- A JSON body `{}` (an empty dict, which Python treats as falsy). -/
def reqEmptyJson : Request := ⟨some []⟩

/-- A request whose image field is the valid bare base64 string
`"QUJD"` (decoding to the bytes of `"ABC"`). -/
def reqQUJD : Request := ⟨some [("image", "QUJD".toList)]⟩

/-- A request whose image field is `"not-valid-base64!!"`. -/
def reqNotValid : Request := ⟨some [("image", "not-valid-base64!!".toList)]⟩

/-- A request whose image field is `"QUJD!"` — it contains an ASCII
character outside the base64 alphabet, yet `b64decode` accepts it. -/
def reqQUJDBang : Request := ⟨some [("image", "QUJD!".toList)]⟩

/-- A request whose image field is `"QUJDé"` — the non-ASCII `é`
makes `base64.b64decode` raise `ValueError` even though the remaining
characters `"QUJD"` decode fine. -/
def reqQUJDAccent : Request := ⟨some [("image", "QUJDé".toList)]⟩

/-- An environment in which PIL fails to parse the decoded bytes
(`Image.open` raising `UnidentifiedImageError`). -/
def envParseFail : Env Unit :=
  ⟨true, fun _ => .error "cannot identify image file", fun _ => .ok (.single none)⟩

/-- An environment in which parsing and classification both succeed and
the model reports the given raw emotion scores. -/
def envScores (raw : List (String × ℚ)) : Env Unit :=
  ⟨true, fun _ => .ok (), fun _ => .ok (.single (some raw))⟩

/-- The raw scores of the spec's confidence test vector:
`{sad: 80, angry: 40, fear: 10}`. -/
def rawC4 : List (String × ℚ) := [("sad", 80), ("angry", 40), ("fear", 10)]

/-! ### Helper lemmas -/

lemma getScore_not_mem (raw : List (String × ℚ)) (k : String)
    (h : k ∉ raw.map Prod.fst) : getScore raw k = 0 := by
  induction raw with
  | nil => rfl
  | cons p rest ih =>
    obtain ⟨k2, v⟩ := p
    simp only [List.map_cons, List.mem_cons] at h
    push_neg at h
    simp only [getScore]
    rw [if_neg fun hk => h.1 hk.symm]
    exact ih h.2

lemma dominant_of_eq (h n s : ℚ) :
    dominant_of [("happy", h), ("neutral", n), ("sad", s)] =
      if h < n then (if n < s then "sad" else "neutral")
      else if h < s then "sad" else "happy" := rfl

lemma dominant_happy_iff (h n s : ℚ) :
    dominant_of [("happy", h), ("neutral", n), ("sad", s)] = "happy" ↔
      n ≤ h ∧ s ≤ h := by
  rw [dominant_of_eq]
  rcases lt_or_le h n with h1 | h1
  · rw [if_pos h1]
    rcases lt_or_le n s with h2 | h2
    · rw [if_pos h2]
      exact iff_of_false (by decide) fun hc => by linarith [hc.1]
    · rw [if_neg (not_lt.mpr h2)]
      exact iff_of_false (by decide) fun hc => by linarith [hc.1]
  · rw [if_neg (not_lt.mpr h1)]
    rcases lt_or_le h s with h3 | h3
    · rw [if_pos h3]
      exact iff_of_false (by decide) fun hc => by linarith [hc.2]
    · rw [if_neg (not_lt.mpr h3)]
      exact iff_of_true rfl ⟨h1, h3⟩

lemma dominant_neutral_iff (h n s : ℚ) :
    dominant_of [("happy", h), ("neutral", n), ("sad", s)] = "neutral" ↔
      h < n ∧ s ≤ n := by
  rw [dominant_of_eq]
  rcases lt_or_le h n with h1 | h1
  · rw [if_pos h1]
    rcases lt_or_le n s with h2 | h2
    · rw [if_pos h2]
      exact iff_of_false (by decide) fun hc => by linarith [hc.2]
    · rw [if_neg (not_lt.mpr h2)]
      exact iff_of_true rfl ⟨h1, h2⟩
  · rw [if_neg (not_lt.mpr h1)]
    rcases lt_or_le h s with h3 | h3
    · rw [if_pos h3]
      exact iff_of_false (by decide) fun hc => by linarith [hc.1]
    · rw [if_neg (not_lt.mpr h3)]
      exact iff_of_false (by decide) fun hc => by linarith [hc.1]

lemma dominant_sad_iff (h n s : ℚ) :
    dominant_of [("happy", h), ("neutral", n), ("sad", s)] = "sad" ↔
      max h n < s := by
  rw [dominant_of_eq]
  rcases lt_or_le h n with h1 | h1
  · rw [if_pos h1, max_eq_right h1.le]
    rcases lt_or_le n s with h2 | h2
    · rw [if_pos h2]
      exact iff_of_true rfl h2
    · rw [if_neg (not_lt.mpr h2)]
      exact iff_of_false (by decide) (not_lt.mpr h2)
  · rw [if_neg (not_lt.mpr h1), max_eq_left h1]
    rcases lt_or_le h s with h3 | h3
    · rw [if_pos h3]
      exact iff_of_true rfl h3
    · rw [if_neg (not_lt.mpr h3)]
      exact iff_of_false (by decide) (not_lt.mpr h3)

lemma detect_missing {Img : Type} (env : Env Img) (flag : Bool) (req : Request)
    (h : requestImage? req = none) :
    detect_emotion env flag req =
      ⟨(warmup_models env.warmupOk flag).1, (warmup_models env.warmupOk flag).2,
       .err400 "Missing image data"⟩ := by
  simp only [detect_emotion, h]

lemma detect_invalid_b64 {Img : Type} (env : Env Img) (flag : Bool) (req : Request)
    (imgStr : List Char) (h1 : requestImage? req = some imgStr)
    (h2 : b64decode (extract_payload imgStr) = none) :
    detect_emotion env flag req =
      ⟨(warmup_models env.warmupOk flag).1, (warmup_models env.warmupOk flag).2,
       .err400 "Invalid base64 image data"⟩ := by
  simp only [detect_emotion, h1, h2]

lemma detect_parse_error {Img : Type} (env : Env Img) (flag : Bool) (req : Request)
    (imgStr : List Char) (bytes : List Nat) (e : String)
    (h1 : requestImage? req = some imgStr)
    (h2 : b64decode (extract_payload imgStr) = some bytes)
    (h3 : env.parseImage bytes = .error e) :
    detect_emotion env flag req =
      ⟨(warmup_models env.warmupOk flag).1, (warmup_models env.warmupOk flag).2,
       .degraded200 "neutral" (5/10) e⟩ := by
  simp only [detect_emotion, h1, h2, h3]

lemma detect_classify_error {Img : Type} (env : Env Img) (flag : Bool) (req : Request)
    (imgStr : List Char) (bytes : List Nat) (img : Img) (e : String)
    (h1 : requestImage? req = some imgStr)
    (h2 : b64decode (extract_payload imgStr) = some bytes)
    (h3 : env.parseImage bytes = .ok img)
    (h4 : env.classify img = .error e) :
    detect_emotion env flag req =
      ⟨(warmup_models env.warmupOk flag).1, (warmup_models env.warmupOk flag).2,
       .degraded200 "neutral" (5/10) e⟩ := by
  simp only [detect_emotion, h1, h2, h3, h4]

lemma detect_first_error {Img : Type} (env : Env Img) (flag : Bool) (req : Request)
    (imgStr : List Char) (bytes : List Nat) (img : Img) (e : String)
    (dfres : DFOut)
    (h1 : requestImage? req = some imgStr)
    (h2 : b64decode (extract_payload imgStr) = some bytes)
    (h3 : env.parseImage bytes = .ok img)
    (h4 : env.classify img = .ok dfres)
    (h5 : firstResult dfres = .error e) :
    detect_emotion env flag req =
      ⟨(warmup_models env.warmupOk flag).1, (warmup_models env.warmupOk flag).2,
       .degraded200 "neutral" (5/10) e⟩ := by
  simp only [detect_emotion, h1, h2, h3, h4, h5]

lemma detect_success {Img : Type} (env : Env Img) (flag : Bool) (req : Request)
    (imgStr : List Char) (bytes : List Nat) (img : Img) (dfres : DFOut)
    (emOpt : Option (List (String × ℚ)))
    (h1 : requestImage? req = some imgStr)
    (h2 : b64decode (extract_payload imgStr) = some bytes)
    (h3 : env.parseImage bytes = .ok img)
    (h4 : env.classify img = .ok dfres)
    (h5 : firstResult dfres = .ok emOpt) :
    detect_emotion env flag req =
      ⟨(warmup_models env.warmupOk flag).1, (warmup_models env.warmupOk flag).2,
       .ok200 (dominant_of (emotion_mapping (emOpt.getD [])))
         (confidence_of (emotion_mapping (emOpt.getD [])))
         (emotion_mapping (emOpt.getD []))⟩ := by
  simp only [detect_emotion, h1, h2, h3, h4, h5]

/-! ### C2 – C4 -/

/-- C2: the aggregator computes `happy = raw[happy]`,
`neutral = raw[neutral]`,
`sad = raw[sad] + 0.5 * raw[angry] + 0.3 * raw[fear]`, treating any
category absent from the raw mapping as 0, and the bucket map has
exactly the keys `happy, neutral, sad`. -/
theorem aggregation_rule_c2 (raw : List (String × ℚ)) :
    (emotion_mapping raw).map Prod.fst = ["happy", "neutral", "sad"] ∧
    getScore (emotion_mapping raw) "happy" = getScore raw "happy" ∧
    getScore (emotion_mapping raw) "neutral" = getScore raw "neutral" ∧
    getScore (emotion_mapping raw) "sad"
      = getScore raw "sad" + (5/10) * getScore raw "angry"
        + (3/10) * getScore raw "fear" ∧
    (∀ k : String, k ∉ raw.map Prod.fst → getScore raw k = 0) := by
  refine ⟨rfl, ?_, ?_, ?_, fun k hk => getScore_not_mem raw k hk⟩
  · simp [emotion_mapping, getScore]
  · simp [emotion_mapping, getScore]
  · simp [emotion_mapping, getScore]; ring

/-- Witness for C2 at a concrete raw mapping missing the `angry`
category. -/
theorem aggregation_rule_c2_witness :
    ("angry" : String) ∉ ([("happy", (7:ℚ))].map Prod.fst) ∧
    getScore [("happy", (7:ℚ))] "angry" = 0 :=
  ⟨by decide,
   (aggregation_rule_c2 [("happy", (7:ℚ))]).2.2.2.2 "angry" (by decide)⟩

/-- C3: the dominant emotion is the bucket key with the maximum value,
ties broken by the iteration order `happy, neutral, sad` (first maximum
wins); `{happy:50, neutral:50, sad:0}` gives `happy` and
`{happy:0, neutral:50, sad:50}` gives `neutral`. -/
theorem dominant_tiebreak_c3 (h n s : ℚ) :
    (dominant_of [("happy", h), ("neutral", n), ("sad", s)] = "happy" ↔
      n ≤ h ∧ s ≤ h) ∧
    (dominant_of [("happy", h), ("neutral", n), ("sad", s)] = "neutral" ↔
      h < n ∧ s ≤ n) ∧
    (dominant_of [("happy", h), ("neutral", n), ("sad", s)] = "sad" ↔
      max h n < s) ∧
    dominant_of [("happy", (50:ℚ)), ("neutral", 50), ("sad", 0)] = "happy" ∧
    dominant_of [("happy", (0:ℚ)), ("neutral", 50), ("sad", 50)] = "neutral" := by
  refine ⟨dominant_happy_iff h n s, dominant_neutral_iff h n s,
    dominant_sad_iff h n s, ?_, ?_⟩
  · exact (dominant_happy_iff 50 50 0).mpr (by norm_num)
  · exact (dominant_neutral_iff 0 50 50).mpr (by norm_num)

/-- C4: confidence is the dominant bucket's value divided by 100 and
rounded to two decimals, with no clamping to `[0,1]`: on raw scores
`{sad:80, angry:40, fear:10}` the sad bucket is 103 and the reported
confidence is 1.03, also through the full success path of the
handler. -/
theorem confidence_unclamped_c4 :
    getScore (emotion_mapping rawC4) "sad" = 103 ∧
    dominant_of (emotion_mapping rawC4) = "sad" ∧
    confidence_of (emotion_mapping rawC4) = round2 (103 / 100) ∧
    confidence_of (emotion_mapping rawC4) = 103 / 100 ∧
    1 < confidence_of (emotion_mapping rawC4) := by
  have hsad : getScore (emotion_mapping rawC4) "sad" = 103 := by
    simp [getScore, emotion_mapping, rawC4]
    norm_num
  have hdom : dominant_of (emotion_mapping rawC4) = "sad" := by
    have h0 : emotion_mapping rawC4 =
        [("happy", 0), ("neutral", 0), ("sad", 103)] := by
      simp [emotion_mapping, getScore, rawC4]
      norm_num
    rw [h0]
    exact (dominant_sad_iff 0 0 103).mpr (by norm_num)
  have hconf : confidence_of (emotion_mapping rawC4) = round2 (103 / 100) := by
    rw [confidence_of, hdom, hsad]
  have hval : round2 ((103:ℚ) / 100) = 103 / 100 := by
    norm_num [round2, roundHalfEven]
  refine ⟨hsad, hdom, hconf, hconf.trans hval, ?_⟩
  rw [hconf, hval]; norm_num

/-! ### C1, C5, C7 -/

/-- C1: for every request that passes the missing-field and
base64-decode checks, every failure during image parsing,
classification, or result aggregation is answered with a 200-status
degraded body `{emotion: "neutral", confidence: 0.5, error: e}` —
never a 4xx or 5xx (the status is 200 whatever the downstream oracles
do); in particular unparseable image bytes inside a valid base64
payload yield the degraded 200. -/
theorem post_validation_degraded_c1 {Img : Type} (env : Env Img) (flag : Bool)
    (req : Request) (imgStr : List Char) (bytes : List Nat)
    (h1 : requestImage? req = some imgStr)
    (h2 : b64decode (extract_payload imgStr) = some bytes) :
    status (detect_emotion env flag req).response = 200 ∧
    (∀ e : String, env.parseImage bytes = .error e →
      (detect_emotion env flag req).response = .degraded200 "neutral" (5/10) e ∧
      bodyEmotion (detect_emotion env flag req).response = some "neutral" ∧
      bodyConfidence (detect_emotion env flag req).response = some (5/10) ∧
      bodyError (detect_emotion env flag req).response = some e) ∧
    (∀ (img : Img) (e : String), env.parseImage bytes = .ok img →
      env.classify img = .error e →
      (detect_emotion env flag req).response = .degraded200 "neutral" (5/10) e) ∧
    (∀ img : Img, env.parseImage bytes = .ok img →
      env.classify img = .ok (.many []) →
      (detect_emotion env flag req).response
        = .degraded200 "neutral" (5/10) "list index out of range") := by
  refine ⟨?_, ?_, ?_, ?_⟩
  · cases hp : env.parseImage bytes with
    | error e =>
      rw [detect_parse_error env flag req imgStr bytes e h1 h2 hp]; rfl
    | ok img =>
      cases hc : env.classify img with
      | error e =>
        rw [detect_classify_error env flag req imgStr bytes img e h1 h2 hp hc]
        rfl
      | ok dfres =>
        cases hf : firstResult dfres with
        | error e =>
          rw [detect_first_error env flag req imgStr bytes img e dfres
            h1 h2 hp hc hf]
          rfl
        | ok emOpt =>
          rw [detect_success env flag req imgStr bytes img dfres emOpt
            h1 h2 hp hc hf]
          rfl
  · intro e hp
    rw [detect_parse_error env flag req imgStr bytes e h1 h2 hp]
    exact ⟨rfl, rfl, rfl, rfl⟩
  · intro img e hp hc
    rw [detect_classify_error env flag req imgStr bytes img e h1 h2 hp hc]
  · intro img hp hc
    rw [detect_first_error env flag req imgStr bytes img
      "list index out of range" (.many []) h1 h2 hp hc rfl]

/-- Witness for C1: the image field `"QUJD"` decodes, PIL rejects the
bytes, and the response is the degraded 200. -/
theorem post_validation_degraded_c1_witness :
    status (detect_emotion envParseFail false reqQUJD).response = 200 ∧
    (detect_emotion envParseFail false reqQUJD).response
      = .degraded200 "neutral" (5/10) "cannot identify image file" := by
  have h := post_validation_degraded_c1 envParseFail false reqQUJD
    ("QUJD".toList) [65, 66, 67] (by decide) (by decide)
  exact ⟨h.1, (h.2.1 "cannot identify image file" rfl).1⟩

/-- C5: whenever the base64 payload of the image string fails to
decode, the handler returns 400 with body
`{"error": "Invalid base64 image data"}`. -/
theorem invalid_b64_400_c5 {Img : Type} (env : Env Img) (flag : Bool)
    (req : Request) (imgStr : List Char)
    (h1 : requestImage? req = some imgStr)
    (h2 : b64decode (extract_payload imgStr) = none) :
    (detect_emotion env flag req).response
      = .err400 "Invalid base64 image data" ∧
    status (detect_emotion env flag req).response = 400 ∧
    bodyError (detect_emotion env flag req).response
      = some "Invalid base64 image data" := by
  rw [detect_invalid_b64 env flag req imgStr h1 h2]
  exact ⟨rfl, rfl, rfl⟩

/-- Witness for C5: posting `{"image": "not-valid-base64!!"}` yields
the 400. -/
theorem invalid_b64_400_c5_witness :
    (detect_emotion envParseFail false reqNotValid).response
      = .err400 "Invalid base64 image data" ∧
    status (detect_emotion envParseFail false reqNotValid).response = 400 :=
  have h := invalid_b64_400_c5 envParseFail false reqNotValid
    ("not-valid-base64!!".toList) (by decide) (by decide)
  ⟨h.1, h.2.1⟩

/-- C7: a request whose JSON body lacks the `image` field (including a
missing or empty body) is answered 400 with
`{"error": "Missing image data"}`. -/
theorem missing_image_400_c7 {Img : Type} (env : Env Img) (flag : Bool)
    (req : Request)
    (h : ∀ d, req.json = some d → lookupField d "image" = none) :
    (detect_emotion env flag req).response = .err400 "Missing image data" ∧
    status (detect_emotion env flag req).response = 400 ∧
    bodyError (detect_emotion env flag req).response
      = some "Missing image data" := by
  have hn : requestImage? req = none := by
    unfold requestImage?
    cases hj : req.json with
    | none => rfl
    | some d =>
      by_cases hd : d.isEmpty
      · simp [hd]
      · simp [hd, h d hj]
  rw [detect_missing env flag req hn]
  exact ⟨rfl, rfl, rfl⟩

/-- Witness for C7: posting `{}` yields the 400. -/
theorem missing_image_400_c7_witness :
    (detect_emotion envParseFail false reqEmptyJson).response
      = .err400 "Missing image data" ∧
    status (detect_emotion envParseFail false reqEmptyJson).response = 400 :=
  have h := missing_image_400_c7 envParseFail false reqEmptyJson
    (fun d hd => by
      simp only [reqEmptyJson] at hd
      cases Option.some.inj hd
      rfl)
  ⟨h.1, h.2.1⟩

/-! ### C6 -/

lemma splitOnComma_of_not_mem (l : List Char) (h : ',' ∉ l) :
    splitOnComma l = [l] := by
  induction l with
  | nil => rfl
  | cons c rest ih =>
    simp only [List.mem_cons] at h
    push_neg at h
    simp only [splitOnComma, ih h.2]
    rw [if_neg fun hc => h.1 hc.symm]

lemma splitOnComma_ne_nil (l : List Char) : splitOnComma l ≠ [] := by
  cases l with
  | nil => simp [splitOnComma]
  | cons c rest =>
    cases hsp : splitOnComma rest with
    | nil => simp [splitOnComma, hsp]
    | cons g gs => by_cases hc : c = ',' <;> simp [splitOnComma, hsp, hc]

lemma splitOnComma_comma_cons (l : List Char) :
    splitOnComma (',' :: l) = [] :: splitOnComma l := by
  simp only [splitOnComma]
  cases h : splitOnComma l with
  | nil => exact absurd h (splitOnComma_ne_nil l)
  | cons g gs => simp

lemma splitOnComma_append (pre payload : List Char) (h : ',' ∉ pre) :
    splitOnComma (pre ++ ',' :: payload) = pre :: splitOnComma payload := by
  induction pre with
  | nil => simp [splitOnComma_comma_cons]
  | cons c rest ih =>
    simp only [List.mem_cons] at h
    push_neg at h
    have hrec := ih h.2
    rw [List.cons_append]
    simp only [splitOnComma]
    rw [hrec]
    dsimp only
    rw [if_neg fun hc => h.1 hc.symm]

lemma afterFirstComma_append (pre payload : List Char) (h : ',' ∉ pre) :
    afterFirstComma (pre ++ ',' :: payload) = payload := by
  induction pre with
  | nil => simp [afterFirstComma]
  | cons c rest ih =>
    simp only [List.mem_cons] at h
    push_neg at h
    rw [List.cons_append]
    simp only [afterFirstComma]
    rw [if_neg fun hc => h.1 hc.symm]
    exact ih h.2

/-- C6 counterexample: the code takes `split(',')[1]` — the segment
between the first and second comma — not everything after the first
comma: on the image string `"x,QUJD,QQ=="` the code's payload is
`"QUJD"` while the spec's described payload is `"QUJD,QQ=="`, and the
two decode to different bytes. -/
theorem prefix_split_c6_counterexample :
    extract_payload "x,QUJD,QQ==".toList = "QUJD".toList ∧
    extract_payload_spec "x,QUJD,QQ==".toList = "QUJD,QQ==".toList ∧
    extract_payload "x,QUJD,QQ==".toList
      ≠ extract_payload_spec "x,QUJD,QQ==".toList ∧
    b64decode (extract_payload "x,QUJD,QQ==".toList) = some [65, 66, 67] ∧
    b64decode (extract_payload_spec "x,QUJD,QQ==".toList)
      = some [65, 66, 67, 65] :=
  ⟨by decide, by decide, by decide, by decide, by decide⟩

/-- C6 amended: prefix stripping takes the segment between the first
and second comma (Python `split(',')[1]`); with no comma the whole
string is the payload. For a data-URL whose prefix and base64 payload
are comma-free — every well-formed data URL — this equals everything
after the first comma, so the data-URL form and the bare form of the
same payload yield the same decoded bytes. -/
theorem prefix_split_c6_amended (pre payload : List Char)
    (hpre : ',' ∉ pre) (hpay : ',' ∉ payload) :
    extract_payload (pre ++ ',' :: payload) = payload ∧
    extract_payload_spec (pre ++ ',' :: payload) = payload ∧
    extract_payload payload = payload ∧
    b64decode (extract_payload (pre ++ ',' :: payload))
      = b64decode (extract_payload payload) := by
  have hmem : ',' ∈ pre ++ ',' :: payload := by
    simp
  have h1 : extract_payload (pre ++ ',' :: payload) = payload := by
    rw [extract_payload, if_pos hmem, splitOnComma_append pre payload hpre,
      splitOnComma_of_not_mem payload hpay]
    rfl
  have h2 : extract_payload payload = payload := by
    rw [extract_payload, if_neg hpay]
  refine ⟨h1, ?_, h2, by rw [h1, h2]⟩
  rw [extract_payload_spec, if_pos hmem, afterFirstComma_append pre payload hpre]

/-- Witness for the amended C6 on a concrete data URL. -/
theorem prefix_split_c6_amended_witness :
    (',' ∉ "data:image/jpeg;base64".toList) ∧
    extract_payload ("data:image/jpeg;base64".toList ++ ',' :: "QUJD".toList)
      = "QUJD".toList :=
  ⟨by decide,
   (prefix_split_c6_amended "data:image/jpeg;base64".toList "QUJD".toList
     (by decide) (by decide)).1⟩

/-! ### C8 – C10 -/

lemma detect_warmup_fst {Img : Type} (env : Env Img) (flag : Bool)
    (req : Request) :
    (detect_emotion env flag req).warmedUp
      = (warmup_models env.warmupOk flag).1 := by
  simp only [detect_emotion]
  repeat' split
  all_goals rfl

lemma detect_warmup_snd {Img : Type} (env : Env Img) (flag : Bool)
    (req : Request) :
    (detect_emotion env flag req).warmupAttempted
      = (warmup_models env.warmupOk flag).2 := by
  simp only [detect_emotion]
  repeat' split
  all_goals rfl

/-- C8 counterexample: on a cold process, posting a request without an
image field still triggers a warmup inference attempt — `warmup_models`
is called at line 88, before the validation at line 94 — refuting the
claim that such a request never triggers warmup. -/
theorem warmup_order_c8_counterexample :
    (detect_emotion envParseFail false reqEmptyJson).warmupAttempted = true ∧
    (detect_emotion envParseFail false reqEmptyJson).warmedUp = true ∧
    (detect_emotion envParseFail false reqEmptyJson).response
      = .err400 "Missing image data" :=
  ⟨rfl, rfl, rfl⟩

/-- C8 amended: warmup-on-first-use runs before the missing-field
validation, so a missing-image request on a cold process does attempt
a warmup inference (and updates the flag accordingly) and then gets
the 400 `MissingImage` response. -/
theorem warmup_order_c8_amended {Img : Type} (env : Env Img) (flag : Bool)
    (req : Request) (h : requestImage? req = none) :
    (detect_emotion env flag req).warmupAttempted = !flag ∧
    (detect_emotion env flag req).warmedUp = (flag || env.warmupOk) ∧
    (detect_emotion env flag req).response = .err400 "Missing image data" := by
  rw [detect_missing env flag req h]
  cases flag <;> cases hok : env.warmupOk <;> simp [warmup_models]

/-- Witness for the amended C8: posting `{}` cold attempts warmup and
returns the 400. -/
theorem warmup_order_c8_amended_witness :
    (detect_emotion envParseFail false reqEmptyJson).warmupAttempted
      = !false ∧
    (detect_emotion envParseFail false reqEmptyJson).response
      = .err400 "Missing image data" :=
  have h := warmup_order_c8_amended envParseFail false reqEmptyJson (by decide)
  ⟨h.1, h.2.2⟩

/-- C9 counterexample: when the warmup inference attempt fails, the
flag stays false — so the flag is not "set true after the first
successful (or attempted) model invocation": an attempted-but-failed
invocation leaves it false (and warmup is retried on the next
request). -/
theorem warmup_flag_c9_counterexample :
    warmup_models false false = (false, true) ∧
    (warmup_models false false).1 ≠ true :=
  ⟨rfl, by decide⟩

/-- C9 amended: the process-wide flag is initialized false, becomes
true only after the first *successful* model invocation (a failed
attempt leaves it false), transitions one-way from cold to warm and is
never reset, and once true no further warmup inference is attempted —
including at the request-handler level. -/
theorem warmup_flag_c9_amended :
    models_warmed_up_init = false ∧
    (∀ ok : Bool, warmup_models ok true = (true, false)) ∧
    warmup_models true false = (true, true) ∧
    warmup_models false false = (false, true) ∧
    (∀ (env : Env Unit) (req : Request),
      (detect_emotion env true req).warmupAttempted = false ∧
      (detect_emotion env true req).warmedUp = true) := by
  refine ⟨rfl, fun ok => rfl, rfl, rfl, fun env req => ⟨?_, ?_⟩⟩
  · rw [detect_warmup_snd]; rfl
  · rw [detect_warmup_fst]; rfl

/-- C10 counterexample: a character outside the base64 alphabet can by
itself take the 400 invalid-base64 branch — `base64.b64decode` on a
`str` ASCII-encodes first, so the non-ASCII `é` in `"QUJDé"` raises
`ValueError` and the handler returns the 400, even though the
remaining characters `"QUJD"` decode successfully. -/
theorem b64_lenient_c10_counterexample :
    ('é' ∉ b64Alphabet) ∧
    ¬ 'é'.toNat < 128 ∧
    b64decode "QUJDé".toList = none ∧
    b64decode "QUJD".toList = some [65, 66, 67] ∧
    (detect_emotion envParseFail false reqQUJDAccent).response
      = .err400 "Invalid base64 image data" ∧
    status (detect_emotion envParseFail false reqQUJDAccent).response
      = 400 := by
  refine ⟨by decide, by decide, by decide, by decide, ?_, ?_⟩
  all_goals
    rw [detect_invalid_b64 envParseFail false reqQUJDAccent
      ("QUJDé".toList) (by decide) (by decide)]
  rfl

/-- C10 amended: an *ASCII* character outside the base64 alphabet does
not by itself take the 400 invalid-base64 branch — `base64.b64decode`
without validation silently discards it, so `"QUJD!"` decodes
successfully and the request proceeds to image parsing; a non-ASCII
character, however, raises `ValueError` by itself; and the 400 branch
is taken exactly when `b64decode` raises — a non-ASCII character is
present, or the remaining data characters end mid-quad (incorrect
padding). -/
theorem b64_lenient_c10 :
    ('!' ∉ b64Alphabet) ∧
    ('!'.toNat < 128) ∧
    b64decode "QUJD!".toList = some [65, 66, 67] ∧
    (detect_emotion envParseFail false reqQUJDBang).response
      = .degraded200 "neutral" (5/10) "cannot identify image file" ∧
    status (detect_emotion envParseFail false reqQUJDBang).response = 200 ∧
    b64decode "notvalidbase64".toList = none ∧
    b64decode "QUJDé".toList = none ∧
    (∀ {Img : Type} (env : Env Img) (flag : Bool) (req : Request),
      (detect_emotion env flag req).response
          = .err400 "Invalid base64 image data" ↔
        ∃ imgStr, requestImage? req = some imgStr ∧
          b64decode (extract_payload imgStr) = none) := by
  have hbang : (detect_emotion envParseFail false reqQUJDBang).response
      = .degraded200 "neutral" (5/10) "cannot identify image file" := by
    rw [detect_parse_error envParseFail false reqQUJDBang
      ("QUJD!".toList) [65, 66, 67] "cannot identify image file"
      (by decide) (by decide) rfl]
  refine ⟨by decide, by decide, by decide, hbang, by rw [hbang]; rfl,
    by decide, by decide, ?_⟩
  intro Img env flag req
  constructor
  · intro heq
    cases h1 : requestImage? req with
    | none =>
      rw [detect_missing env flag req h1] at heq
      simp at heq
    | some imgStr =>
      cases h2 : b64decode (extract_payload imgStr) with
      | none => exact ⟨imgStr, rfl, h2⟩
      | some bytes =>
        exfalso
        cases h3 : env.parseImage bytes with
        | error e =>
          rw [detect_parse_error env flag req imgStr bytes e h1 h2 h3] at heq
          simp at heq
        | ok img =>
          cases h4 : env.classify img with
          | error e =>
            rw [detect_classify_error env flag req imgStr bytes img e
              h1 h2 h3 h4] at heq
            simp at heq
          | ok dfres =>
            cases h5 : firstResult dfres with
            | error e =>
              rw [detect_first_error env flag req imgStr bytes img e dfres
                h1 h2 h3 h4 h5] at heq
              simp at heq
            | ok emOpt =>
              rw [detect_success env flag req imgStr bytes img dfres emOpt
                h1 h2 h3 h4 h5] at heq
              simp at heq
  · rintro ⟨imgStr, hi, hb⟩
    rw [detect_invalid_b64 env flag req imgStr hi hb]

end EmotionAPI
